import Mathlib

/-!
Verification of pyqlab's `datafile.py` (class `Datafile` and its module-level
helpers) against its natural-language specification.

The embedding models the HDF5 container as a finite tree of groups and
datasets, the `Datafile` object state as a record, and Python's dynamic
failures (TypeError, AttributeError, KeyError, ...) as `Except` results.
Every definition is translated line by line from `src/pyqlab/datafile.py`;
comments cite the Python lines they embed.

Key facts of the source that the embedding reproduces faithfully:
  * `get_timestamp_now` (lines 61-73) calls `datetime.replace(":", "_")` on a
    `datetime` object; `datetime.replace` takes the year as its first
    positional argument and requires an int, so the call raises TypeError on
    every execution.
  * `create_group` (lines 94-124) indexes the open file with a `PurePath`
    object (h5py names must be str or bytes, so TypeError) and tests
    `isinstance(parent, h5py.Datagroup)` (the h5py module has no attribute
    `Datagroup`, so AttributeError); both errors are swallowed by the
    `except Exception` handler, so `create_group` always returns False and
    never creates a group.
  * `Datafile.generate_attr_str` does not exist: `generate_attr_str` is a
    module-level function and the class defines no such attribute, so the
    attribute access raises AttributeError.
  * `save_string` (line 196) calls `h5py.string_dtype(encode=...)`; the
    parameter is named `encoding`, so the call raises TypeError, which
    `save_string` does not catch.
-/

/-- Python exception values that the embedded code can raise. -/
inductive PyErr where
  | typeError (msg : String)
  | attributeError (msg : String)
  | keyError (msg : String)
  | valueError (msg : String)
  | exception (msg : String)
deriving Repr, DecidableEq

/-- A Python `datetime.datetime` value (the fields `datetime.now()` carries). -/
structure Datetime where
  year : Int
  month : Int
  day : Int
  hour : Int
  minute : Int
  second : Int
  microsecond : Int
deriving Repr, DecidableEq

/-- A dynamically typed Python value, as far as the embedded code needs one. -/
inductive PyObj where
  | int (n : Int)
  | str (s : String)
  | dt (d : Datetime)
deriving Repr, DecidableEq

/-- `datetime.replace` invoked with two positional arguments, as in
`ct.replace(":", "_")`: the first positional parameter is `year` and the
second is `month`, both of which must be integers; passing a str raises
TypeError (this is what every call in `get_timestamp_now` does). -/
def Datetime.replace2 (d : Datetime) (yearArg monthArg : PyObj) : Except PyErr Datetime :=
  match yearArg, monthArg with
  | PyObj.int y, PyObj.int m => Except.ok { d with year := y, month := m }
  | _, _ => Except.error (PyErr.typeError "str object cannot be interpreted as an integer")

/-- Embeds `get_timestamp_now` (datafile.py lines 61-73).  `ct` is the
`datetime` object returned by `datetime.datetime.now()` (passed in as the
argument `now`); the source never converts it to a string, so
`ct.replace(":", "_")` is `datetime.replace` with positional year=":",
which raises TypeError.  The annotated `-> str` value is never produced;
were all three `replace` calls to succeed, the function would still return
a datetime object, which the embedding records as `PyObj.dt`. -/
def get_timestamp_now (now : Datetime) : Except PyErr PyObj := do
  let ct := now
  let ct ← ct.replace2 (PyObj.str ":") (PyObj.str "_")
  let ct ← ct.replace2 (PyObj.str "-") (PyObj.str "_")
  let ct ← ct.replace2 (PyObj.str " ") (PyObj.str "-")
  Except.ok (PyObj.dt ct)

/-- Rendering of a Python value by `str(...)` / f-string interpolation.
Only ever reached on unreachable code paths of the embedding. -/
def pyStr : PyObj → String
  | PyObj.int n => toString n
  | PyObj.str s => s
  | PyObj.dt _ => "datetime"

/-- Embeds the module-level `generate_attr_str` (datafile.py lines 38-59):
a deterministic `key<eq>value` join over the dict's insertion order. -/
def generate_attr_str (attrs : List (String × String)) (sep eq : String) : String :=
  String.intercalate sep (attrs.map (fun kv => kv.1 ++ eq ++ kv.2))

/-- Embeds the expression `Datafile.generate_attr_str(...)` as written at
datafile.py lines 110, 172, 199, 210 and 221: `generate_attr_str` is a
module-level function and the class `Datafile` defines no attribute of that
name, so the attribute lookup raises AttributeError before any call happens. -/
def Datafile.generate_attr_str (attrs : List (String × String)) : Except PyErr String :=
  let _ := attrs
  Except.error (PyErr.attributeError "type object Datafile has no attribute generate_attr_str")

/-- Embeds `h5py.string_dtype(encode=...)` as called at datafile.py line 196:
`string_dtype` has keyword parameters `encoding` and `length`, so the
unexpected keyword `encode` raises TypeError at the call. -/
def string_dtype_kw_encode (encode : String) : Except PyErr Unit :=
  let _ := encode
  Except.error (PyErr.typeError "string_dtype() got an unexpected keyword argument encode")

/-- A `pathlib.PurePath` value: an absolute flag and the path segments. -/
structure PurePathM where
  absolute : Bool
  parts : List String
deriving Repr, DecidableEq

/-- Split a list of characters on `/`. -/
def splitSegsAux : List Char → List Char → List String
  | [], acc => [String.mk acc.reverse]
  | c :: rest, acc =>
    if c = '/' then String.mk acc.reverse :: splitSegsAux rest []
    else splitSegsAux rest (c :: acc)

/-- Parse a string into a `PurePath`: absolute iff it starts with `/`;
empty and `.` segments are dropped, as pathlib does. -/
def PurePathM.ofString (s : String) : PurePathM :=
  { absolute := match s.data with
      | '/' :: _ => true
      | _ => false,
    parts := (splitSegsAux s.data []).filter (fun seg => seg != "" && seg != ".") }

/-- `PurePath` joining: a later absolute path replaces everything before it. -/
def PurePathM.join (p q : PurePathM) : PurePathM :=
  if q.absolute then q else { absolute := p.absolute, parts := p.parts ++ q.parts }

/-- `PurePath.name`: the final segment, or the empty string at the root. -/
def PurePathM.nameOf (p : PurePathM) : String := p.parts.getLast?.getD ""

/-- `PurePath.parent`: drop the final segment. -/
def PurePathM.parent (p : PurePathM) : PurePathM := { p with parts := p.parts.dropLast }

/-- A value passed where h5py expects an object name: the Python callers of
`create_group` pass either a `str` or a `PurePath` object. -/
inductive PyName where
  | str (s : String)
  | path (p : PurePathM)
deriving Repr, DecidableEq

/-- The `PurePath` a `PyName` denotes when given to the `PurePath` constructor
(which accepts both strings and path objects). -/
def pyNameToPath : PyName → PurePathM
  | PyName.str s => PurePathM.ofString s
  | PyName.path p => p

/-- A numpy-like array: a shape tuple and an element payload (the element
payload is carried opaquely; no arithmetic is performed on it). -/
structure NpArray where
  shape : List Nat
  elems : List Int
deriving Repr, DecidableEq

/-- The payload of an HDF5 dataset as written by the embedded code. -/
inductive H5Data where
  | str (s : String)
  | arr (a : NpArray)
  | double (v : Int)
deriving Repr, DecidableEq

/-- A node of the HDF5 container: a group (attributes plus named children in
insertion order) or a dataset (attributes plus payload).  Attribute values
are the UTF-8 strings the code stores. -/
inductive H5Node where
  | group (attrs : List (String × String)) (children : List (String × H5Node))
  | dataset (attrs : List (String × String)) (data : H5Data)
deriving Repr

/-- Association-list lookup by name (h5py group member lookup). -/
def lookupA {α : Type} : String → List (String × α) → Option α
  | _, [] => none
  | k, kv :: rest => if k = kv.1 then some kv.2 else lookupA k rest

/-- Association-list removal by name (`del grp[n_key]`). -/
def removeA {α : Type} (k : String) (l : List (String × α)) : List (String × α) :=
  l.filter (fun kv => kv.1 != k)

/-- Walk a path (list of segments) down the tree. -/
def H5Node.find : H5Node → List String → Option H5Node
  | n, [] => some n
  | H5Node.group _ cs, k :: rest =>
    match lookupA k cs with
    | some child => H5Node.find child rest
    | none => none
  | H5Node.dataset _ _, _ :: _ => none

/-- Replace the node at a path in the tree (identity when the path is absent
or traverses a dataset). -/
def H5Node.setAt : H5Node → List String → H5Node → H5Node
  | _, [], newNode => newNode
  | H5Node.dataset a d, _ :: _, _ => H5Node.dataset a d
  | H5Node.group a cs, k :: rest, newNode =>
    H5Node.group a (cs.map (fun kv =>
      if kv.1 = k then (kv.1, H5Node.setAt kv.2 rest newNode) else kv))

/-- `h5py.File(fname, "a")`: opening in append mode creates an empty root
group when the file does not yet exist. -/
def openAppend : Option H5Node → H5Node
  | none => H5Node.group [] []
  | some r => r

/-- h5py item lookup `f[key]`.  h5py object names must be `str` or `bytes`;
a `PurePath` object raises TypeError (h5py encodes names with `.encode`,
which path objects do not have).  A missing string name raises KeyError. -/
def h5GetItem (root : H5Node) (key : PyName) : Except PyErr H5Node :=
  match key with
  | PyName.path _ => Except.error (PyErr.typeError "A name should be a string or bytes")
  | PyName.str s =>
    match H5Node.find root (PurePathM.ofString s).parts with
    | some n => Except.ok n
    | none => Except.error (PyErr.keyError s)

/-- The mutable state of a `Datafile` object together with its file on disk:
`file = none` means the HDF5 file has not been created yet, and `log` is the
sequence of console messages printed so far. -/
structure DFState where
  fname : String
  rootGroup : String
  file : Option H5Node
  log : List String
deriving Repr

/-- Embeds `Datafile.create_group` (datafile.py lines 94-124).

The source computes `p = PurePath(self.root_group, parentkey, groupname)`,
opens the file in append mode, and then inside a `try`:
  * `parent = f[parent_key]` passes the `PurePath` object `p.parent` to
    h5py, which raises TypeError; the inner handler catches only KeyError,
    so the TypeError reaches the outer handlers.  (Had the lookup raised
    KeyError instead, `f.create_group(parent_key)` would receive the same
    `PurePath` and raise the same TypeError.)
  * Even with a successful lookup, `isinstance(parent, h5py.Datagroup)`
    at line 107 would raise AttributeError, because the h5py module has no
    attribute `Datagroup`; this happens before `parent.create_group` and
    before the attribute string at lines 110-116 is computed, and the
    computed `attr_str` is in any case never attached to any group.
The outer `except Exception` prints the traceback and leaves
`success = False`, so every call returns False and mutates nothing except
creating the empty file via the append-mode open. -/
def create_group (st : DFState) (groupname parentkey : PyName) (note grouptype : String) :
    Except PyErr Bool × DFState :=
  let _ := note
  let _ := grouptype
  let p := PurePathM.join (PurePathM.join (PurePathM.ofString st.rootGroup)
    (pyNameToPath parentkey)) (pyNameToPath groupname)
  let parent_key := p.parent
  let _grp_key := p.nameOf
  let f := openAppend st.file
  let body : Except PyErr Bool :=
    match h5GetItem f (PyName.path parent_key) with
    | Except.error (PyErr.keyError _) =>
      -- parent = f.create_group(parent_key): also a PurePath name, so TypeError
      Except.error (PyErr.typeError "A name should be a string or bytes")
    | Except.error e => Except.error e
    | Except.ok _parent =>
      -- if isinstance(parent, h5py.Datagroup): AttributeError, see above
      Except.error (PyErr.attributeError "module h5py has no attribute Datagroup")
  match body with
  | Except.ok b => (Except.ok b, { st with file := some f })
  | Except.error (PyErr.valueError _) =>
    (Except.ok false,
      { st with
        file := some f,
        log := st.log ++ ["group " ++ PurePathM.nameOf p ++ " cannot be created...", "traceback"] })
  | Except.error _ =>
    (Except.ok false, { st with file := some f, log := st.log ++ ["traceback"] })

/-- Embeds datafile.py lines 142-144: when `n_key` names an existing member
that is a dataset and `overwrite` is set, `del grp[n_key]` removes it;
every other case leaves the member list unchanged. -/
def pruneForOverwrite (n_key : String) (overwrite : Bool)
    (children : List (String × H5Node)) : List (String × H5Node) :=
  match lookupA n_key children with
  | some (H5Node.dataset _ _) => if overwrite then removeA n_key children else children
  | _ => children

/-- Embeds datafile.py lines 138-152, the body of `save_as_dataset` once
`grp = f[grp_key]` is in hand: reject a dataset standing where the parent
group should be; when `n_key` names an existing dataset and `overwrite` is
set, delete it; if `n_key` is still occupied (a surviving dataset or a
group), raise; otherwise create the dataset and attach the single attribute
`created_by_pyqlab` holding `attr_str` as a UTF-8 string scalar.  Returns
the updated parent group node together with `success = True`. -/
def saveDatasetInner (grp : H5Node) (n_key : String) (data : H5Data) (attr_str : String)
    (overwrite : Bool) : Except PyErr (Bool × H5Node) :=
  match grp with
  | H5Node.dataset _ _ =>
    Except.error (PyErr.exception
      "Name \x7bgrp_key\x7d already occupied. Failed to create a data group with that name")
  | H5Node.group gattrs children =>
    if (lookupA n_key (pruneForOverwrite n_key overwrite children)).isSome then
      Except.error (PyErr.exception
        "Cannot overwrite key \x7bn_key\x7d in group \x7bgrp_key\x7d as dataset")
    else
      Except.ok (true, H5Node.group gattrs
        (pruneForOverwrite n_key overwrite children
          ++ [(n_key, H5Node.dataset [("created_by_pyqlab", attr_str)] data)]))

/-- Embeds `Datafile.save_as_dataset` (datafile.py lines 126-154).

`p = PurePath(groupkey, name)` is split into `grp_key = p.parent` and
`n_key = p.name`; then `self.create_group(grp_key, "/", "")` guards the
write.  Since `create_group` always returns False (see its docstring), the
guard always fails and the method returns False having written nothing.
The guarded block is still embedded faithfully: it would re-open the file,
index it with the `PurePath` object `PurePath(self.root_group, grp_key)`
(raising TypeError, uncaught here), and otherwise run `saveDatasetInner`. -/
def save_as_dataset (st : DFState) (data : H5Data) (name groupkey : String)
    (attr_str : String) (overwrite : Bool) : Except PyErr Bool × DFState :=
  let p := PurePathM.join (PurePathM.ofString groupkey) (PurePathM.ofString name)
  let grp_key := p.parent
  let n_key := p.nameOf
  let r := create_group st (PyName.path grp_key) (PyName.str "/") "" ""
  let st1 := r.2
  match r.1 with
  | Except.error e => (Except.error e, st1)
  | Except.ok false => (Except.ok false, st1)
  | Except.ok true =>
    let f := openAppend st1.file
    let grp_key2 := PurePathM.join (PurePathM.ofString st1.rootGroup) grp_key
    match h5GetItem f (PyName.path grp_key2) with
    | Except.error e => (Except.error e, { st1 with file := some f })
    | Except.ok grp =>
      match saveDatasetInner grp n_key data attr_str overwrite with
      | Except.error e => (Except.error e, { st1 with file := some f })
      | Except.ok (b, grp') =>
        (Except.ok b, { st1 with file := some (H5Node.setAt f grp_key2.parts grp') })

/-- Embeds `Datafile.__init__` (datafile.py lines 83-92): store the file
name, root group and console, then call `get_timestamp_now()` — which
raises TypeError on every execution, with no handler in `__init__`, so
construction fails before any file is opened or written.  The unreachable
remainder builds the `LogINIT[<ct>]` name and the init message and calls
`save_as_dataset(data, dataset_name, "/pyqlab_log", "", overwrite=True)`;
note the attribute string passed there is the empty string. -/
def Datafile.init (fname operator root_group note : String) (now : Datetime)
    (file0 : Option H5Node) : Except PyErr Unit × DFState :=
  let st : DFState := { fname := fname, rootGroup := root_group, file := file0, log := [] }
  match get_timestamp_now now with
  | Except.error e => (Except.error e, st)
  | Except.ok ct =>
    let dataset_name := "LogINIT[" ++ pyStr ct ++ "]"
    let data := H5Data.str ("Initiated by operator: [" ++ operator ++ "]. Note: [" ++ note ++ "]")
    let r := save_as_dataset st data dataset_name "/pyqlab_log" "" true
    match r.1 with
    | Except.error e => (Except.error e, r.2)
    | Except.ok _ => (Except.ok (), r.2)

/-- Embeds `Datafile.save_image` (datafile.py lines 156-185).  Inside the
`try`: when the buffer shape differs from the declared dimension tuple, a
warning is printed (the source string has no `f` prefix, so the braces are
literal); then `get_timestamp_now()` raises TypeError, which the
`except Exception` handler catches, printing the traceback; the method then
falls off its end and returns None (embedded as `Except.ok none`), never
True, and never writes a dataset. -/
def save_image (st : DFState) (name groupkey : String) (data : NpArray)
    (dimension : List Nat) (color_channels note : String) (overwrite : Bool)
    (now : Datetime) : Except PyErr (Option Bool) × DFState :=
  let st1 :=
    if data.shape != dimension then
      { st with log := st.log ++
        ["Warning: dimension provided \x7bstr(dimension)\x7d is not consistent with image data shape \x7bstr(data.shape)\x7d"] }
    else st
  match get_timestamp_now now with
  | Except.error _e => (Except.ok none, { st1 with log := st1.log ++ ["traceback"] })
  | Except.ok ct =>
    -- unreachable: Datafile.generate_attr_str would raise AttributeError, likewise caught
    match Datafile.generate_attr_str [("type", "image"), ("dimensions", "dim"),
        ("color_channels", color_channels), ("timestamp", pyStr ct), ("note", note)] with
    | Except.error _e => (Except.ok none, { st1 with log := st1.log ++ ["traceback"] })
    | Except.ok attr_str =>
      let r := save_as_dataset st1 (H5Data.arr data) name groupkey attr_str overwrite
      match r.1 with
      | Except.ok b => (Except.ok (some b), r.2)
      | Except.error _e => (Except.ok none, { r.2 with log := r.2.log ++ ["traceback"] })

/-- Embeds `Datafile.save_string` (datafile.py lines 187-206).  The first
statement, `dt = h5py.string_dtype(encode=encode)`, raises TypeError
(unexpected keyword), and `save_string` has no exception handler, so the
error propagates to the caller.  The unreachable remainder would raise
again at `get_timestamp_now()` and at `Datafile.generate_attr_str`; the
`np.fromstring` conversion in between is not modelled further because no
execution reaches it. -/
def save_string (st : DFState) (name groupkey data note encode : String)
    (overwrite : Bool) (now : Datetime) : Except PyErr Unit × DFState :=
  let _ := name
  let _ := groupkey
  let _ := data
  let _ := note
  let _ := overwrite
  match string_dtype_kw_encode encode with
  | Except.error e => (Except.error e, st)
  | Except.ok _ =>
    match get_timestamp_now now with
    | Except.error e => (Except.error e, st)
    | Except.ok _ => (Except.ok (), st)

/-- Embeds `Datafile.save_variable` (datafile.py lines 208-217).  The first
statement calls `get_timestamp_now()`, which raises TypeError; there is no
handler, so the error propagates and `save_as_dataset` is never reached.
The unreachable remainder builds the attribute string via the nonexistent
`Datafile.generate_attr_str` and delegates with `overwrite` left at its
default True. -/
def save_variable (st : DFState) (name groupkey : String) (data : H5Data)
    (note typestr : String) (now : Datetime) : Except PyErr Unit × DFState :=
  match get_timestamp_now now with
  | Except.error e => (Except.error e, st)
  | Except.ok ct =>
    match Datafile.generate_attr_str
        [("typestr", typestr), ("timestamp", pyStr ct), ("note", note)] with
    | Except.error e => (Except.error e, st)
    | Except.ok attr_str =>
      let r := save_as_dataset st data name groupkey attr_str true
      match r.1 with
      | Except.error e => (Except.error e, r.2)
      | Except.ok _ => (Except.ok (), r.2)

/-- Embeds `Datafile.save_nparray` (datafile.py lines 219-227): identical
shape to `save_variable` without the `typestr` field; raises TypeError at
`get_timestamp_now()` before any delegation, with no handler. -/
def save_nparray (st : DFState) (name groupkey : String) (data : H5Data)
    (note : String) (now : Datetime) : Except PyErr Unit × DFState :=
  match get_timestamp_now now with
  | Except.error e => (Except.error e, st)
  | Except.ok ct =>
    match Datafile.generate_attr_str [("timestamp", pyStr ct), ("note", note)] with
    | Except.error e => (Except.error e, st)
    | Except.ok attr_str =>
      let r := save_as_dataset st data name groupkey attr_str true
      match r.1 with
      | Except.error e => (Except.error e, r.2)
      | Except.ok _ => (Except.ok (), r.2)

/-- A pandas DataFrame, carried opaquely (its serialization is delegated to
the external table-I/O collaborator and never reached). -/
structure DataFrame where
  cols : List String
deriving Repr, DecidableEq

/-- Embeds `Datafile.save_dataframe` (datafile.py lines 229-235).  The first
statement calls `get_timestamp_now()`, which raises TypeError with no
handler.  The unreachable remainder guards `df.to_hdf` behind
`create_group(p, "/", note, "DataFrame")`, which always returns False, so
the external `to_hdf` write is never invoked. -/
def save_dataframe (st : DFState) (name groupkey : String) (df : DataFrame)
    (note : String) (now : Datetime) : Except PyErr Unit × DFState :=
  let _ := df
  match get_timestamp_now now with
  | Except.error e => (Except.error e, st)
  | Except.ok _ct =>
    let p := PurePathM.join (PurePathM.ofString groupkey) (PurePathM.ofString name)
    let r := create_group st (PyName.path p) (PyName.str "/") note "DataFrame"
    (Except.ok (), r.2)

/-- Whether a public-method result propagated a Python exception to the
caller (rather than returning a value). -/
def raisesToCaller {α : Type} (r : Except PyErr α × DFState) : Bool :=
  match r.1 with
  | Except.error _ => true
  | Except.ok _ => false

/-! ## Helper lemmas -/

/-- Appending a binding for an absent key makes lookup find exactly it. -/
theorem lookupA_append_self {α : Type} (k : String) (v : α) :
    ∀ l : List (String × α), lookupA k l = none → lookupA k (l ++ [(k, v)]) = some v := by
  intro l
  induction l with
  | nil => intro _; simp [lookupA]
  | cons hd tl ih =>
    intro h
    rw [List.cons_append]
    simp only [lookupA] at h ⊢
    by_cases hk : k = hd.1
    · rw [if_pos hk] at h; exact absurd h (by simp)
    · rw [if_neg hk] at h ⊢
      exact ih h


/-! ## Concrete container states used to evaluate the claims -/

/-- A container holding one dataset at `/g/d`, stamped with an old
provenance attribute. -/
def fileGD : H5Node :=
  H5Node.group []
    [("g", H5Node.group []
      [("d", H5Node.dataset [("created_by_pyqlab", "timestamp:old")] (H5Data.str "old"))])]

/-- A `Datafile` over `fileGD`. -/
def stGD : DFState :=
  { fname := "data.h5"
    rootGroup := "/"
    file := some fileGD
    log := [] }

/-- A `Datafile` whose HDF5 file does not exist yet. -/
def stNoFile : DFState :=
  { fname := "data.h5"
    rootGroup := "/"
    file := none
    log := [] }

/-- A `Datafile` over a file holding only the empty root group. -/
def stRootOnly : DFState :=
  { fname := "data.h5"
    rootGroup := "/"
    file := some (H5Node.group [] [])
    log := [] }

/-- A container holding one scalar dataset at `/g/x`. -/
def fileGX : H5Node :=
  H5Node.group []
    [("g", H5Node.group []
      [("x", H5Node.dataset [("created_by_pyqlab", "old")] (H5Data.double 7))])]

/-- A `Datafile` over `fileGX`. -/
def stGX : DFState :=
  { fname := "data.h5"
    rootGroup := "/"
    file := some fileGX
    log := [] }

/-- A sample value for `datetime.datetime.now()`. -/
def dt2026 : Datetime := ⟨2026, 10, 12, 9, 30, 0, 0⟩

/-! ## Claim theorems -/

/-- C8: the claim says `get_timestamp_now` returns a string rendering of the
current time with `:` and `-` replaced by `_` and space by `-`.  In the code,
`ct` is the `datetime` object itself and `ct.replace(":", "_")` calls
`datetime.replace` with a string where an integer `year` is required, so
every call raises TypeError and no string is ever returned (code_bug). -/
theorem c8_get_timestamp_now_raises_typeerror (d : Datetime) :
    get_timestamp_now d
      = Except.error (PyErr.typeError "str object cannot be interpreted as an integer") := rfl

/-- C2: the claim says two identical `create_group` calls both return true and
leave exactly one group at the path.  In the code every `create_group` call
fails internally (a PurePath object is used as an h5py name, and
`h5py.Datagroup` does not exist), returns False, and creates no group:
starting from an absent file, both calls return False and the file holds
only the empty root group (code_bug). -/
theorem c2_create_group_twice_never_creates :
    (create_group stNoFile (PyName.str "g") (PyName.str "/") "" "").1 = Except.ok false
  ∧ (create_group (create_group stNoFile (PyName.str "g") (PyName.str "/") "" "").2
      (PyName.str "g") (PyName.str "/") "" "").1 = Except.ok false
  ∧ (create_group (create_group stNoFile (PyName.str "g") (PyName.str "/") "" "").2
      (PyName.str "g") (PyName.str "/") "" "").2.file = some (H5Node.group [] []) :=
  ⟨rfl, rfl, rfl⟩

/-- C5: the claim says `create_group` stamps each newly created group with a
`timestamp/note/grouptype` provenance string.  In the code no group is ever
created (the call fails before `parent.create_group`), and even on the
intended path the computed `attr_str` is never attached to any object: the
call returns False and the file still holds only the bare root group with
no attributes (code_bug). -/
theorem c5_create_group_stamps_no_provenance :
    (create_group stNoFile (PyName.str "newgrp") (PyName.str "/") "a note" "rawdata").1
      = Except.ok false
  ∧ (create_group stNoFile (PyName.str "newgrp") (PyName.str "/") "a note" "rawdata").2.file
      = some (H5Node.group [] []) :=
  ⟨rfl, rfl⟩

/-- C1: the claim says `save_as_dataset` on an occupied name with
`overwrite=true` deletes the old dataset and creates a new one carrying the
new provenance timestamp.  In the code the `create_group` guard at line 134
always returns False, so `save_as_dataset` returns False and writes
nothing: with a dataset at `/g/d` carrying the old attribute, an
`overwrite=true` call returns False and leaves the old dataset and its
attribute fully intact (code_bug). -/
theorem c1_overwrite_true_never_replaces :
    (save_as_dataset stGD (H5Data.str "new") "d" "g" "timestamp:new" true).1 = Except.ok false
  ∧ (save_as_dataset stGD (H5Data.str "new") "d" "g" "timestamp:new" true).2.file
      = some fileGD :=
  ⟨rfl, rfl⟩

/-- C6: the claim says construction performs exactly one write, a `LogINIT`
dataset under `/pyqlab_log`.  In the code `__init__` calls
`get_timestamp_now()`, which raises TypeError with no handler, so
construction fails before the file is even created: no log entry, no file
(code_bug). -/
theorem c6_construction_writes_nothing :
    (Datafile.init "data.h5" "alice" "/" "init" dt2026 none).1
      = Except.error (PyErr.typeError "str object cannot be interpreted as an integer")
  ∧ (Datafile.init "data.h5" "alice" "/" "init" dt2026 none).2.file = none :=
  ⟨rfl, rfl⟩

/-- C3: the claim says every successful write carries a non-empty provenance
attribute, in particular the `LogINIT` dataset written during construction.
In the code construction raises TypeError before writing anything, and the
`save_as_dataset` call it would make passes the EMPTY string as `attr_str`
(line 92), so the write step — evaluated here on the exact arguments
`__init__` supplies — stamps `LogINIT` with an empty provenance string
(code_bug). -/
theorem c3_loginit_provenance_empty :
    (Datafile.init "data.h5" "bob" "/" "calib" dt2026 none).1
      = Except.error (PyErr.typeError "str object cannot be interpreted as an integer")
  ∧ saveDatasetInner (H5Node.group [] []) "LogINIT[ts]"
      (H5Data.str "Initiated by operator: [bob]. Note: [calib]") "" true
      = Except.ok (true, H5Node.group []
          [("LogINIT[ts]", H5Node.dataset [("created_by_pyqlab", "")]
            (H5Data.str "Initiated by operator: [bob]. Note: [calib]"))]) :=
  ⟨rfl, rfl⟩

/-- C7: the claim says `save_image` with a shape/dimension mismatch still
succeeds (returns true, dataset written) while warning.  In the code the
warning is printed, but `get_timestamp_now()` then raises inside the `try`;
the handler prints the traceback and the method falls off its end,
returning None — not True — with no dataset written (code_bug). -/
theorem c7_save_image_returns_none :
    (save_image stRootOnly "img1" "exp1" ⟨[100, 100, 3], []⟩ [50, 50, 3]
        "RGB" "" true dt2026).1 = Except.ok none
  ∧ (save_image stRootOnly "img1" "exp1" ⟨[100, 100, 3], []⟩ [50, 50, 3]
        "RGB" "" true dt2026).2.file = some (H5Node.group [] [])
  ∧ (save_image stRootOnly "img1" "exp1" ⟨[100, 100, 3], []⟩ [50, 50, 3]
        "RGB" "" true dt2026).2.log
      = ["Warning: dimension provided \x7bstr(dimension)\x7d is not consistent with image data shape \x7bstr(data.shape)\x7d",
         "traceback"] :=
  ⟨rfl, rfl, rfl⟩

/-- C9: the claim says `save_variable` and `save_nparray` silently delete and
replace any dataset already at the target name (delegating to
`save_as_dataset` with `overwrite` at its default true).  The call sites do
omit `overwrite` (whose default is True) and expose no such parameter, but
in the code both methods raise TypeError in `get_timestamp_now()` before
any delegation, so an existing dataset at the target name is never touched
(code_bug). -/
theorem c9_save_variable_raises_before_delegating :
    (save_variable stGX "x" "g" (H5Data.double 3) "note" "double" dt2026).1
      = Except.error (PyErr.typeError "str object cannot be interpreted as an integer")
  ∧ (save_variable stGX "x" "g" (H5Data.double 3) "note" "double" dt2026).2.file
      = some fileGX
  ∧ (save_nparray stGX "x" "g" (H5Data.arr ⟨[2], [1, 2]⟩) "note" dt2026).1
      = Except.error (PyErr.typeError "str object cannot be interpreted as an integer") :=
  ⟨rfl, rfl, rfl⟩

/-- C4 counterexample: the claim says every public write method catches all
errors internally and returns false.  `save_string` has no exception
handler at all: its first statement `h5py.string_dtype(encode=encode)`
raises TypeError, which escapes to the caller, refuting the claim at this
concrete input. -/
theorem c4_save_string_exception_escapes :
    (save_string stNoFile "s1" "grp" "hello" "a note" "utf-8" true dt2026).1
      = Except.error
          (PyErr.typeError "string_dtype() got an unexpected keyword argument encode") :=
  rfl

/-- C4 amended: only `create_group` and `save_image` catch errors internally
and return without raising (`save_as_dataset` also happens never to raise,
because its `create_group` guard always fails before its raising code is
reached); `save_string`, `save_variable`, `save_nparray` and
`save_dataframe` let exceptions escape to the caller — each of them in fact
raises TypeError on every call. -/
theorem c4_errors_caught_only_in_create_group_and_save_image
    (st : DFState) (gn pk : PyName) (note gt nm gk attr enc s ts cc : String)
    (d : H5Data) (a : NpArray) (dim : List Nat) (ow : Bool) (now : Datetime) (df : DataFrame) :
    raisesToCaller (create_group st gn pk note gt) = false
  ∧ raisesToCaller (save_as_dataset st d nm gk attr ow) = false
  ∧ raisesToCaller (save_image st nm gk a dim cc note ow now) = false
  ∧ raisesToCaller (save_string st nm gk s note enc ow now) = true
  ∧ raisesToCaller (save_variable st nm gk d note ts now) = true
  ∧ raisesToCaller (save_nparray st nm gk d note now) = true
  ∧ raisesToCaller (save_dataframe st nm gk df note now) = true :=
  ⟨rfl, rfl, rfl, rfl, rfl, rfl, rfl⟩

/-- C10: whenever the dataset-writing step of `save_as_dataset` (datafile.py
lines 138-152) reports success, the dataset it created at the leaf name
carries exactly one attribute, named `created_by_pyqlab`, holding the
supplied provenance string as a UTF-8 string scalar; no other attribute
name is used for provenance by any write path (every write path funnels
into these lines). -/
theorem c10_write_step_attaches_created_by_pyqlab (grp : H5Node) (n_key : String)
    (data : H5Data) (attr_str : String) (overwrite : Bool) (g : H5Node)
    (h : saveDatasetInner grp n_key data attr_str overwrite = Except.ok (true, g)) :
    ∃ gattrs children, g = H5Node.group gattrs children
      ∧ lookupA n_key children
          = some (H5Node.dataset [("created_by_pyqlab", attr_str)] data) := by
  cases grp with
  | dataset a d => exact absurd h (by simp [saveDatasetInner])
  | group gattrs children =>
    simp only [saveDatasetInner] at h
    split at h
    · exact Except.noConfusion h
    · rename_i hnone
      simp only [Except.ok.injEq, Prod.mk.injEq] at h
      obtain ⟨-, hg⟩ := h
      refine ⟨gattrs,
        pruneForOverwrite n_key overwrite children
          ++ [(n_key, H5Node.dataset [("created_by_pyqlab", attr_str)] data)],
        hg.symm, ?_⟩
      have hnone' : lookupA n_key (pruneForOverwrite n_key overwrite children) = none := by
        cases hopt : lookupA n_key (pruneForOverwrite n_key overwrite children) with
        | none => rfl
        | some v => rw [hopt] at hnone; exact absurd rfl hnone
      exact lookupA_append_self n_key _ _ hnone'

/-- C10 witness: the write step applied to an empty parent group produces a
dataset whose sole attribute is `created_by_pyqlab` with the given string. -/
theorem c10_write_step_attaches_created_by_pyqlab_witness :
    ∃ gattrs children,
      H5Node.group []
          [("d", H5Node.dataset [("created_by_pyqlab", "timestamp:t")] (H5Data.str "v"))]
        = H5Node.group gattrs children
      ∧ lookupA "d" children
          = some (H5Node.dataset [("created_by_pyqlab", "timestamp:t")] (H5Data.str "v")) :=
  c10_write_step_attaches_created_by_pyqlab (H5Node.group [] []) "d" (H5Data.str "v")
    "timestamp:t" true
    (H5Node.group []
      [("d", H5Node.dataset [("created_by_pyqlab", "timestamp:t")] (H5Data.str "v"))]) rfl
